import Mathlib

/-!
Verification development for the FoMo GPU regular-grid renderer
(`fomo-c/src/fomo-gpu-regulargrid.cpp`).

The C++ floating-point quantities are embedded as exact rationals; machine
trigonometry (`cos`, `sin`) is embedded by passing the precomputed cosine and
sine values as parameters, exactly as the source computes `cosa`/`sina` once
and then applies a linear map.
-/

/-- Shallow embedding of `RegularGridRenderer::rotateAroundZ`
(fomo-gpu-regulargrid.cpp:612-623).  The source computes `cosa = cos(angle)`
and `sina = sin(angle)` and then applies the planar rotation; here the
precomputed pair `(cosa, sina)` is the parameter. -/
def rotateAroundZ (cosa sina : ℚ) (v : ℚ × ℚ × ℚ) : ℚ × ℚ × ℚ :=
  (cosa * v.1 - sina * v.2.1, sina * v.1 + cosa * v.2.1, v.2.2)

/-- Shallow embedding of `RegularGridRenderer::rotateAroundY`
(fomo-gpu-regulargrid.cpp:625-636). -/
def rotateAroundY (cosa sina : ℚ) (v : ℚ × ℚ × ℚ) : ℚ × ℚ × ℚ :=
  (cosa * v.1 + sina * v.2.2, v.2.1, -sina * v.1 + cosa * v.2.2)

/-- The x-direction pixel spacing `(maxx-minx)/(x_pixel-1)` used by
`RenderWithGPURegularGrid` (fomo-gpu-regulargrid.cpp:698). -/
def pixelSpacingX (minx maxx : ℚ) (x_pixel : ℕ) : ℚ :=
  (maxx - minx) / ((x_pixel : ℚ) - 1)

/-- The y-direction pixel spacing `(maxy-miny)/(y_pixel-1)` used by
`RenderWithGPURegularGrid` (fomo-gpu-regulargrid.cpp:698). -/
def pixelSpacingY (miny maxy : ℚ) (y_pixel : ℕ) : ℚ :=
  (maxy - miny) / ((y_pixel : ℚ) - 1)

/-- Shallow embedding of the interpolation distance bound computed by
`RenderWithGPURegularGrid` (fomo-gpu-regulargrid.cpp:698):
`2*std::max((maxx-minx)/(x_pixel-1),(maxy-miny)/(y_pixel-1))/.3`. -/
def maxdistance (minx maxx miny maxy : ℚ) (x_pixel y_pixel : ℕ) : ℚ :=
  2 * max (pixelSpacingX minx maxx x_pixel) (pixelSpacingY miny maxy y_pixel) / (3/10)

/-- The distance bound as claim C3 words it: the fixed scale factor applied to
the SMALLER of the two pixel spacings.  Stated from the claim, for comparison
with `maxdistance`, which is taken from the source. -/
def maxdistanceClaimMin (minx maxx miny maxy : ℚ) (x_pixel y_pixel : ℕ) : ℚ :=
  2 * min (pixelSpacingX minx maxx x_pixel) (pixelSpacingY miny maxy y_pixel) / (3/10)

/-- The triple of per-axis bounds that `RenderWithGPURegularGrid` passes to
`constructRegularGrid` (fomo-gpu-regulargrid.cpp:699): the single value
`maxdistance` is used for all three axes. -/
def sweepMaxDistances (minx maxx miny maxy : ℚ) (x_pixel y_pixel : ℕ) : ℚ × ℚ × ℚ :=
  (maxdistance minx maxx miny maxy x_pixel y_pixel,
   maxdistance minx maxx miny maxy x_pixel y_pixel,
   maxdistance minx maxx miny maxy x_pixel y_pixel)

/-- Grid size along x from `constructRegularGrid` (fomo-gpu-regulargrid.cpp:189):
`(maxx - minx)*float(gridx)/float(gridx - 1)`.  There is no special case for
`gridx == 1` in the source (the float code divides by zero there; in this
rational embedding the division by zero yields 0 — under IEEE it yields
infinity or NaN — in either case not the value 1). -/
def grid_size_x (minx maxx : ℚ) (gridx : ℕ) : ℚ :=
  (maxx - minx) * (gridx : ℚ) / ((gridx : ℚ) - 1)

/-- Grid size along y from `constructRegularGrid` (fomo-gpu-regulargrid.cpp:191). -/
def grid_size_y (miny maxy : ℚ) (gridy : ℕ) : ℚ :=
  (maxy - miny) * (gridy : ℚ) / ((gridy : ℚ) - 1)

/-- Grid size along z from `constructRegularGrid` (fomo-gpu-regulargrid.cpp:193):
`(goftCube->readdim() < 3 || gridz == 1 ? 1 : (maxz - minz)*float(gridz)/float(gridz - 1))`.
Only this axis has the 1-unit-thick-slab special case. -/
def grid_size_z (minz maxz : ℚ) (dim gridz : ℕ) : ℚ :=
  if dim < 3 ∨ gridz = 1 then 1 else (maxz - minz) * (gridz : ℚ) / ((gridz : ℚ) - 1)

/-- Grid midpoint along x from `constructRegularGrid` (fomo-gpu-regulargrid.cpp:188). -/
def grid_mid_x (minx maxx : ℚ) : ℚ := (minx + maxx) / 2

/-- The physical x-coordinate of grid cell column `j` computed by the
construction loop (fomo-gpu-regulargrid.cpp:229):
`x = double(j)/(gridx - 1)*(maxx - minx) + minx`. -/
def cellCoordX (minx maxx : ℚ) (gridx j : ℕ) : ℚ :=
  (j : ℚ) / ((gridx : ℚ) - 1) * (maxx - minx) + minx

/-- Modelled from the spec: the header `FoMo-internal.h` declaring the
`DisplayMode` enum is not under src; spec section 4.4 names the two mode
variants used by the renderer. -/
inductive DisplayMode
  | AllIntensities
  | IntegratedIntensity
  deriving DecidableEq

/-- The persistent renderer state touched by the pipeline methods of
`RegularGridRenderer`: the two sequencing flags (fomo-gpu-regulargrid.cpp:180-181,
292-296, 351-358, 382-385), the stored grid resolution (lines 185-187) and the
stored rendering settings (lines 300-306). -/
structure RendererState where
  hasRegularGrid : Bool
  hasRenderingSettings : Bool
  displayMode : DisplayMode
  gridx : ℕ
  gridy : ℕ
  gridz : ℕ
  x_pixel : ℕ
  y_pixel : ℕ
  lambda_pixel : ℕ
  deriving DecidableEq

/-- Modelled from the spec: the header declaring the members is not under src,
so the initial values of the flags are taken from spec section 4.4
(`Uninitialized` state: no grid bound, no mode configured). -/
def initRendererState : RendererState :=
  { hasRegularGrid := false, hasRenderingSettings := false,
    displayMode := DisplayMode.IntegratedIntensity,
    gridx := 0, gridy := 0, gridz := 0, x_pixel := 0, y_pixel := 0, lambda_pixel := 0 }

def setSettingsBeforeGridMsg : String :=
  "Cannot call setRenderingSettings before calling constructRegularGrid! Returning."

def renderBeforeSettingsMsg : String :=
  "Cannot call render before calling setRenderingSettings! Returning."

def renderAllIntensitiesMsg : String :=
  "Cannot call render while in the AllIntensities display mode! Returning."

def renderToFileBeforeSettingsMsg : String :=
  "Cannot call renderToFile before calling setRenderingSettings! Returning."

/-- State effect of `RegularGridRenderer::constructRegularGrid`
(fomo-gpu-regulargrid.cpp:178-274) on the persistent renderer state: sets
`hasRegularGrid`, clears `hasRenderingSettings` (lines 180-181) and stores the
grid resolution (lines 185-187). -/
def constructRegularGridState (s : RendererState) (gx gy gz : ℕ) : RendererState :=
  { s with hasRegularGrid := true, hasRenderingSettings := false,
           gridx := gx, gridy := gy, gridz := gz }

/-- `RegularGridRenderer::setRenderingSettings` (fomo-gpu-regulargrid.cpp:287-337):
returns the new state, the diagnostics printed, and whether the operation was
performed.  Without a regular grid it prints and returns before any mutation
(lines 292-295); otherwise it stores the settings and sets the display mode. -/
def setRenderingSettingsState (s : RendererState) (xp yp lp : ℕ) (mode : DisplayMode) :
    RendererState × List String × Bool :=
  if !s.hasRegularGrid then
    (s, [setSettingsBeforeGridMsg], false)
  else
    ({ s with hasRenderingSettings := true, x_pixel := xp, y_pixel := yp,
              lambda_pixel := lp, displayMode := mode }, [], true)

/-- `RegularGridRenderer::renderToBuffer` (fomo-gpu-regulargrid.cpp:349-361):
without rendering settings, or in the AllIntensities display mode, it prints
and returns before rendering; otherwise it renders (which leaves the
persistent mode state unchanged). -/
def renderToBufferState (s : RendererState) : RendererState × List String × Bool :=
  if !s.hasRenderingSettings then
    (s, [renderBeforeSettingsMsg], false)
  else if s.displayMode = DisplayMode.AllIntensities then
    (s, [renderAllIntensitiesMsg], false)
  else
    (s, [], true)

/-- Result of one `renderToCube` call: final state, diagnostics, whether a
frame was rendered, whether a file was written, whether the cube was stored
through the pointer. -/
structure CubeCallResult where
  state : RendererState
  diags : List String
  performed : Bool
  wroteFile : Bool
  storedCube : Bool
  deriving DecidableEq

/-- `RegularGridRenderer::renderToCube` (fomo-gpu-regulargrid.cpp:376-472).
The no-output early exit (lines 379-380) precedes the settings check
(lines 382-385).  A performed call temporarily switches the display mode to
AllIntensities and restores it before returning (lines 388-390 and 470-471),
so the persistent state is unchanged in every case; it writes a file iff the
file name is nonempty (line 457) and stores the cube iff the pointer is
non-null (line 463). -/
def renderToCubeState (s : RendererState) (fileNameEmpty renderCubePointerNull : Bool) :
    CubeCallResult :=
  if fileNameEmpty && renderCubePointerNull then
    { state := s, diags := [], performed := false, wroteFile := false, storedCube := false }
  else if !s.hasRenderingSettings then
    { state := s, diags := [renderToFileBeforeSettingsMsg],
      performed := false, wroteFile := false, storedCube := false }
  else
    { state := s, diags := [],
      performed := true, wroteFile := !fileNameEmpty, storedCube := !renderCubePointerNull }

/-- A state with settings configured and the AllIntensities display mode,
used to witness the third clause of C7. -/
def allIntensitiesReadyState : RendererState :=
  { initRendererState with hasRegularGrid := true, hasRenderingSettings := true,
                           displayMode := DisplayMode.AllIntensities }

/-- One call on the public pipeline surface of `RegularGridRenderer`. -/
inductive RendererEvent
  | construct (gx gy gz : ℕ)
  | setSettings (xp yp lp : ℕ) (mode : DisplayMode)
  | toBuffer
  | toCube (fileNameEmpty renderCubePointerNull : Bool)
  deriving DecidableEq

def RendererEvent.isConstruct : RendererEvent → Bool
  | .construct _ _ _ => true
  | _ => false

def RendererEvent.isSetSettings : RendererEvent → Bool
  | .setSettings _ _ _ _ => true
  | _ => false

/-- State transition of one pipeline call (discarding diagnostics). -/
def stepRenderer (s : RendererState) : RendererEvent → RendererState
  | .construct gx gy gz => constructRegularGridState s gx gy gz
  | .setSettings xp yp lp m => (setRenderingSettingsState s xp yp lp m).1
  | .toBuffer => (renderToBufferState s).1
  | .toCube fe pn => (renderToCubeState s fe pn).state

/-- The renderer state reached by a sequence of pipeline calls from the
initial state. -/
def runRenderer (t : List RendererEvent) : RendererState :=
  t.foldl stepRenderer initRendererState

/-- The (l, b) index pairs visited by the sweep loops of
`RenderWithGPURegularGrid` (fomo-gpu-regulargrid.cpp:702-718): the Cartesian
product of the two angle lists, l-index outer, b-index inner. -/
def sweepIndexPairs (nl nb : ℕ) : List (ℕ × ℕ) :=
  (List.range nl).flatMap fun li => (List.range nb).map fun bi => (li, bi)

/-- The source's last-pair test `std::next(lit) == lvec.end() &&
std::next(bit) == bvec.end()` (fomo-gpu-regulargrid.cpp:715): positionally the
last element of both lists. -/
def isLastPair (nl nb : ℕ) (p : ℕ × ℕ) : Bool :=
  p.1 == nl - 1 && p.2 == nb - 1

/-- Accumulated observable effects of a sweep: which pairs were actually
rendered (in order), which pairs got a file written, and which pair's frame
the returned cube holds. -/
structure SweepAccum where
  rendered : List (ℕ × ℕ)
  filesWritten : List (ℕ × ℕ)
  returned : Option (ℕ × ℕ)
  deriving DecidableEq

/-- One iteration of the sweep loop (fomo-gpu-regulargrid.cpp:705-715): calls
`renderToCube` with file name `outfile.empty() ? "" : ss.str()` — `ss.str()`
is nonempty whenever `outfile` is (it starts with `outfile` followed by "l"),
so the file-name-empty flag equals the outfile-empty flag — and with the cube
pointer non-null exactly for the last pair.  The renderer state is unchanged
by each call (`renderToCube` restores the display mode). -/
def sweepStep (s : RendererState) (nl nb : ℕ) (outfileEmpty : Bool)
    (acc : SweepAccum) (p : ℕ × ℕ) : SweepAccum :=
  let r := renderToCubeState s outfileEmpty (!(isLastPair nl nb p))
  { rendered := acc.rendered ++ if r.performed then [p] else [],
    filesWritten := acc.filesWritten ++ if r.wroteFile then [p] else [],
    returned := if r.storedCube then some p else acc.returned }

/-- `RenderWithGPURegularGrid` (fomo-gpu-regulargrid.cpp:687-722): builds the
index and grid once (the renderer constructor plus one `constructRegularGrid`
call, lines 695-699), configures AllIntensities once (line 700), then folds
the sweep loop over the angle product.  The grid resolution passed to
`constructRegularGrid` is (x_pixel, y_pixel, z_pixel), as at line 699.
Parametrized by the index counts of the two angle lists and by whether
`outfile` is empty. -/
def renderSweepModel (xp yp zp lp nl nb : ℕ) (outfileEmpty : Bool) : SweepAccum :=
  let s1 := constructRegularGridState initRendererState xp yp zp
  let s2 := (setRenderingSettingsState s1 xp yp lp DisplayMode.AllIntensities).1
  (sweepIndexPairs nl nb).foldl (sweepStep s2 nl nb outfileEmpty)
    { rendered := [], filesWritten := [], returned := none }

/-- The unstructured source point cloud as read by the renderer: coordinate
arrays `grid[0..2]` (fomo-gpu-regulargrid.cpp:120, 128-131), the physical
variables peak intensity, line width and velocity (lines 215-219), and the
cube dimensionality `readdim()` (line 122). -/
structure SourceData where
  dim : ℕ
  xs : List ℚ
  ys : List ℚ
  zs : List ℚ
  peakvec : List ℚ
  fwhmvec : List ℚ
  vx : List ℚ
  vy : List ℚ
  vz : List ℚ
  deriving DecidableEq

def SourceData.ngrid (sd : SourceData) : ℕ := sd.xs.length

/-- x-coordinate of indexed point `i` as stored in the R-tree (line 130). -/
def SourceData.px (sd : SourceData) (i : ℕ) : ℚ := sd.xs.getD i 0

/-- y-coordinate of indexed point `i` as stored in the R-tree (line 130). -/
def SourceData.py (sd : SourceData) (i : ℕ) : ℚ := sd.ys.getD i 0

/-- z-coordinate of indexed point `i` as stored in the R-tree:
`dim == 2 ? 0 : grid[2][i]` (line 130). -/
def SourceData.pz (sd : SourceData) (i : ℕ) : ℚ :=
  if sd.dim = 2 then 0 else sd.zs.getD i 0

/-- `*min_element(...)` over a coordinate list (fomo-gpu-regulargrid.cpp:139-144);
0 on the empty list (the C++ is undefined there). -/
def listMin : List ℚ → ℚ
  | [] => 0
  | x :: r => r.foldl min x

/-- `*max_element(...)` over a coordinate list. -/
def listMax : List ℚ → ℚ
  | [] => 0
  | x :: r => r.foldl max x

def SourceData.minx (sd : SourceData) : ℚ := listMin sd.xs

def SourceData.maxx (sd : SourceData) : ℚ := listMax sd.xs

def SourceData.miny (sd : SourceData) : ℚ := listMin sd.ys

def SourceData.maxy (sd : SourceData) : ℚ := listMax sd.ys

def SourceData.minz (sd : SourceData) : ℚ := listMin sd.zs

def SourceData.maxz (sd : SourceData) : ℚ := listMax sd.zs

/-- Squared Euclidean distance from indexed point `i` to the target. -/
def SourceData.dist2 (sd : SourceData) (i : ℕ) (tx ty tz : ℚ) : ℚ :=
  (sd.px i - tx) ^ 2 + (sd.py i - ty) ^ 2 + (sd.pz i - tz) ^ 2

/-- The bounded nearest-neighbour query
`rtree.query(nearest(targetPoint, 1) && within(maxdistancebox), ...)`
(fomo-gpu-regulargrid.cpp:245-246): the nearest indexed point lying within
the axis-aligned box from `point(x - mdx, y - mdy, z - mdz)` to
`point(x + mdx, y + mdy, z + mdz)` (line 245).  boost.geometry `within`
excludes the box boundary, hence strict inequalities.
Distance ties are broken towards the smaller index here; the R-tree's
internal tie order is unspecified, and no claim depends on ties. -/
def queryNearestWithin (sd : SourceData) (tx ty tz mdx mdy mdz : ℚ) : Option ℕ :=
  (List.range sd.ngrid).foldl
    (fun best i =>
      if tx - mdx < sd.px i ∧ sd.px i < tx + mdx ∧
         ty - mdy < sd.py i ∧ sd.py i < ty + mdy ∧
         tz - mdz < sd.pz i ∧ sd.pz i < tz + mdz then
        match best with
        | none => some i
        | some b => if sd.dist2 i tx ty tz < sd.dist2 b tx ty tz then some i else best
      else best)
    none

/-- The physical y-coordinate of grid cell row `i` computed by the
construction loop (fomo-gpu-regulargrid.cpp:228). -/
def cellCoordY (miny maxy : ℚ) (gridy i : ℕ) : ℚ :=
  (i : ℚ) / ((gridy : ℚ) - 1) * (maxy - miny) + miny

/-- The z-step of the construction loop (fomo-gpu-regulargrid.cpp:209-210):
`deltaz = (maxz - minz); if (gridz != 1) deltaz /= (gridz - 1);`. -/
def deltaZ (minz maxz : ℚ) (gridz : ℕ) : ℚ :=
  if gridz = 1 then maxz - minz else (maxz - minz) / ((gridz : ℚ) - 1)

/-- The physical z-coordinate of grid cell layer `k`
(fomo-gpu-regulargrid.cpp:236): `z = double(k)*deltaz + minz`. -/
def cellCoordZ (minz maxz : ℚ) (gridz k : ℕ) : ℚ :=
  (k : ℚ) * deltaZ minz maxz gridz + minz

/-- The bounded nearest-neighbour query issued for grid cell (i, j, k)
(fomo-gpu-regulargrid.cpp:228-246). -/
def gridCellQuery (sd : SourceData) (gx gy gz : ℕ) (mdx mdy mdz : ℚ)
    (i j k : ℕ) : Option ℕ :=
  queryNearestWithin sd
    (cellCoordX sd.minx sd.maxx gx j)
    (cellCoordY sd.miny sd.maxy gy i)
    (cellCoordZ sd.minz sd.maxz gz k)
    mdx mdy mdz

/-- The fixed units-conversion factor `float(1e8)` (cm per Mm,
fomo-gpu-regulargrid.cpp:252-254). -/
def conversionFactor : ℚ := 100000000

/-- The fixed Gaussian-integral constant `1.064467019`
(`sqrt(pi/(4*ln(2)))`, fomo-gpu-regulargrid.cpp:253-254). -/
def gaussianConst : ℚ := 1064467019 / 1000000000

/-- The `cl_float8` the construction loop stores for a cell
(fomo-gpu-regulargrid.cpp:249-257): on a hit,
`{1e8*peak, fwhm, vx, vy, vz, 0, 0, 0}`; on a miss the defined default
`{0, 1, 0, 0, 0, 0, 0, 0}` ("All values must be initialized to deal with NaN
and such"). -/
def cellFloat8 (sd : SourceData) (q : Option ℕ) : List ℚ :=
  match q with
  | some n => [conversionFactor * sd.peakvec.getD n 0, sd.fwhmvec.getD n 0,
               sd.vx.getD n 0, sd.vy.getD n 0, sd.vz.getD n 0, 0, 0, 0]
  | none => [0, 1, 0, 0, 0, 0, 0, 0]

/-- The emissivity scalar the construction loop stores for a cell
(fomo-gpu-regulargrid.cpp:254, 258): on a hit
`1e8*peak*fwhm*1.064467019`, else 0. -/
def cellEmissivity (sd : SourceData) (q : Option ℕ) : ℚ :=
  match q with
  | some n => conversionFactor * sd.peakvec.getD n 0 * sd.fwhmvec.getD n 0 * gaussianConst
  | none => 0

/-- A one-point source cloud: position (0,0,0), peak 2, width 3,
velocity (4,5,6). -/
def sampleSourceData : SourceData :=
  { dim := 3, xs := [0], ys := [0], zs := [0],
    peakvec := [2], fwhmvec := [3], vx := [4], vy := [5], vz := [6] }

/-- Write the value list `vals` at consecutive float slots
`base, base+1, ...` of a host memory image. -/
def writeSlots (mem : ℕ → Option ℚ) (base : ℕ) (vals : List ℚ) : ℕ → Option ℚ :=
  fun s => if base ≤ s ∧ s < base + vals.length then some (vals.getD (s - base) 0) else mem s

/-- Host memory image produced by the cell-filling loop of
`constructRegularGrid` (fomo-gpu-regulargrid.cpp:202-264) in serial
(non-OpenMP) order.  BOTH host pointers are mapped from the same device
buffer `cl_buffer_points` (lines 202-203; the second map was evidently meant
to use `cl_buffer_emissivity`, the buffer that is later written FROM this
pointer at line 271): with `CL_MEM_ALLOC_HOST_PTR` both maps expose the same
host region, so `points[index]` occupies float slots `8*index .. 8*index+7`
and `emissivity[index]` occupies float slot `index` of one shared memory.
The loop visits cells in increasing flat index
`index = i*gridx*gridz + j*gridz + k` (lines 225-248) and per cell writes the
float8 and then the emissivity scalar (lines 249-259).  Slots never written
stay `none`. -/
def constructHostMem (sd : SourceData) (gx gy gz : ℕ) (mdx mdy mdz : ℚ) :
    ℕ → Option ℚ :=
  (List.range (gx * gy * gz)).foldl
    (fun mem n =>
      let i := n / (gx * gz)
      let j := (n / gz) % gx
      let k := n % gz
      let q := gridCellQuery sd gx gy gz mdx mdy mdz i j k
      writeSlots (writeSlots mem (8 * n) (cellFloat8 sd q)) n [cellEmissivity sd q])
    (fun _ => none)

/-- Double-buffer state of `RegularGridRenderer::render`
(fomo-gpu-regulargrid.cpp:542-594) in the AllIntensities mode: the contents
of the two per-channel device output buffers (`floats_out[0]`/`floats_out[1]`,
slot-indexed; `none` = never written) and the host frame buffer `floats`
(`none` = never written; `renderToCube` allocates it with `new float[...]`
without initializing it, line 392). -/
structure ChunkState (α : Type) where
  buf0 : ℕ → Option α
  buf1 : ℕ → Option α
  out : ℕ → Option α

def getBuf {α : Type} (s : ChunkState α) (ch : Bool) : ℕ → Option α :=
  if ch then s.buf1 else s.buf0

def setBuf {α : Type} (s : ChunkState α) (ch : Bool) (b : ℕ → Option α) : ChunkState α :=
  if ch then { s with buf1 := b } else { s with buf0 := b }

/-- Modelled from the spec: the kernel source `gpu-regulargrid.cl` is not
under src.  Per spec section 4.4 the kernel evaluates every wavelength sample
of every pixel of its chunk; the per-slot value is modelled as an abstract
function `f` of the global frame slot.  `enqueueKernel(index, offset, size)`
(fomo-gpu-regulargrid.cpp:645-652) launches the kernel with NDRange offset
`offset` and size `size` on channel `index`; it fills the channel's output
buffer slots `t < size*lambda_pixel` with the value of frame slot
`offset*lambda_pixel + t`, leaving the remaining slots as they were.  Claim
C1 is insensitive to the actual per-pixel values. -/
def enqueueKernel {α : Type} (f : ℕ → α) (lp : ℕ) (s : ChunkState α) (ch : Bool)
    (offset size : ℕ) : ChunkState α :=
  setBuf s ch (fun t => if t < size * lp then some (f (offset * lp + t)) else getBuf s ch t)

/-- `RegularGridRenderer::extractData` (fomo-gpu-regulargrid.cpp:654-674), the
AllIntensities branch: blocking-reads `pixels_in_job*lambda_pixel` slots of
channel `index`'s output buffer and copies them into the host frame buffer
starting at `local_offset = offset*lambda_pixel`. -/
def extractData {α : Type} (lp : ℕ) (s : ChunkState α) (ch : Bool)
    (pixels_in_job offset : ℕ) : ChunkState α :=
  { s with out := fun t =>
      if offset * lp ≤ t ∧ t < offset * lp + pixels_in_job * lp then
        getBuf s ch (t - offset * lp)
      else s.out t }

/-- The ping-pong loop of `render` (fomo-gpu-regulargrid.cpp:574-579): while
`offset < pixels`, queue the next chunk on the other channel, extract the
previous chunk (`chunk_size` pixels at `offset - chunk_size`) from this
channel, flip channels, advance by `chunk_size`.  Fuel-indexed: with
`chunk ≥ 1` the loop runs at most `pixels` iterations, so fuel `pixels`
suffices (a zero chunk size would loop forever in the C++ as well).  Returns
the final state and the channel index the loop exits with. -/
def renderLoop {α : Type} (f : ℕ → α) (lp chunk pixels : ℕ) :
    ℕ → ChunkState α → Bool → ℕ → ChunkState α × Bool
  | 0, s, ch, _ => (s, ch)
  | fuel + 1, s, ch, offset =>
    if offset < pixels then
      let s1 := enqueueKernel f lp s (!ch) offset (min chunk (pixels - offset))
      let s2 := extractData lp s1 ch chunk (offset - chunk)
      renderLoop f lp chunk pixels fuel s2 (!ch) (offset + chunk)
    else (s, ch)

/-- `RegularGridRenderer::render` (fomo-gpu-regulargrid.cpp:568-581): the
first chunk (`min(chunk_size, pixels)` pixels at offset 0) is issued on
channel 0, the ping-pong loop runs from `offset = chunk_size`, and after the
loop the final drain extracts `pixels % chunk_size` pixels at offset
`pixels/chunk_size*chunk_size` from the channel the loop exited with.
Returns the host frame buffer. -/
def renderFrame {α : Type} (f : ℕ → α) (lp chunk pixels : ℕ) : ℕ → Option α :=
  let s0 : ChunkState α := ⟨fun _ => none, fun _ => none, fun _ => none⟩
  let s1 := enqueueKernel f lp s0 false 0 (min chunk pixels)
  let r := renderLoop f lp chunk pixels pixels s1 false chunk
  (extractData lp r.1 r.2 (pixels % chunk) (pixels / chunk * chunk)).out

/-- C9: rotating by an angle and then by its negation returns the original
vector, and each rotation leaves its out-of-plane component unchanged.
The source computes `cosa = cos(angle)`, `sina = sin(angle)`; an angle pair
`(θ, -θ)` corresponds to the parameter pairs `(cosa, sina)` and
`(cosa, -sina)` with `cosa^2 + sina^2 = 1` (cosine is even, sine is odd,
and the Pythagorean identity holds for every angle).  Over exact rational
arithmetic the round trip is exact, as the claim states for real/rational
arithmetic.  The out-of-plane component is the third (z) for `rotateAroundZ`
and the second (y) for `rotateAroundY`. -/
theorem rotate_roundtrip_pure (cosa sina : ℚ) (v : ℚ × ℚ × ℚ)
    (h : cosa ^ 2 + sina ^ 2 = 1) :
    rotateAroundZ cosa (-sina) (rotateAroundZ cosa sina v) = v ∧
    rotateAroundY cosa (-sina) (rotateAroundY cosa sina v) = v ∧
    (rotateAroundZ cosa sina v).2.2 = v.2.2 ∧
    (rotateAroundY cosa sina v).2.1 = v.2.1 := by
  obtain ⟨x, y, z⟩ := v
  refine ⟨?_, ?_, rfl, rfl⟩
  · simp only [rotateAroundZ, Prod.mk.injEq]
    exact ⟨by linear_combination x * h, by linear_combination y * h, trivial⟩
  · simp only [rotateAroundY, Prod.mk.injEq]
    exact ⟨by linear_combination x * h, trivial, by linear_combination z * h⟩

/-- Witness for C9 at the concrete unit pair (3/5, 4/5) and vector (1, 2, 3). -/
theorem rotate_roundtrip_pure_witness :
    ((3/5 : ℚ) ^ 2 + (4/5 : ℚ) ^ 2 = 1) ∧
    (rotateAroundZ (3/5) (-(4/5)) (rotateAroundZ (3/5) (4/5) (1, 2, 3)) = (1, 2, 3) ∧
     rotateAroundY (3/5) (-(4/5)) (rotateAroundY (3/5) (4/5) (1, 2, 3)) = (1, 2, 3) ∧
     (rotateAroundZ (3/5) (4/5) (1, 2, 3)).2.2 = (3 : ℚ) ∧
     (rotateAroundY (3/5) (4/5) (1, 2, 3)).2.1 = (2 : ℚ)) :=
  ⟨by norm_num, rotate_roundtrip_pure (3/5) (4/5) (1, 2, 3) (by norm_num)⟩

/-- C3 counterexample: with x-spacing 1 and y-spacing 10 the source formula
(which takes `std::max` of the two spacings, fomo-gpu-regulargrid.cpp:698)
differs from the claimed "smaller of the two spacings" formula. -/
theorem maxdistance_not_min :
    maxdistance 0 1 0 10 2 2 ≠ maxdistanceClaimMin 0 1 0 10 2 2 := by
  simp only [maxdistance, maxdistanceClaimMin, pixelSpacingX, pixelSpacingY]
  norm_num

/-- C3 amended: `RenderWithGPURegularGrid` derives the distance bound as the
fixed scale factor 2/0.3 = 20/3 applied to the LARGER of the x and y pixel
spacings, and passes that single value as all three per-axis bounds to
`constructRegularGrid`. -/
theorem sweepMaxDistances_larger_spacing (minx maxx miny maxy : ℚ) (xp yp : ℕ)
    (hx : 2 ≤ xp) (hy : 2 ≤ yp) :
    (sweepMaxDistances minx maxx miny maxy xp yp).1 =
      (sweepMaxDistances minx maxx miny maxy xp yp).2.1 ∧
    (sweepMaxDistances minx maxx miny maxy xp yp).2.1 =
      (sweepMaxDistances minx maxx miny maxy xp yp).2.2 ∧
    (sweepMaxDistances minx maxx miny maxy xp yp).1 =
      20/3 * max (pixelSpacingX minx maxx xp) (pixelSpacingY miny maxy yp) := by
  refine ⟨rfl, rfl, ?_⟩
  simp only [sweepMaxDistances, maxdistance]
  ring

/-- Witness for the amended C3 theorem at x_pixel = y_pixel = 2 and
bounds ([0,1], [0,10]). -/
theorem sweepMaxDistances_larger_spacing_witness :
    (2 ≤ 2 ∧ 2 ≤ 2) ∧
    ((sweepMaxDistances 0 1 0 10 2 2).1 = (sweepMaxDistances 0 1 0 10 2 2).2.1 ∧
     (sweepMaxDistances 0 1 0 10 2 2).2.1 = (sweepMaxDistances 0 1 0 10 2 2).2.2 ∧
     (sweepMaxDistances 0 1 0 10 2 2).1 =
       20/3 * max (pixelSpacingX 0 1 2) (pixelSpacingY 0 10 2)) :=
  ⟨⟨le_refl 2, le_refl 2⟩,
   sweepMaxDistances_larger_spacing 0 1 0 10 2 2 (le_refl 2) (le_refl 2)⟩

/-- C4 counterexample: for the x axis, `gridx = 1` does NOT collapse the axis
to a 1-unit-thick slab; the source (fomo-gpu-regulargrid.cpp:189) has no
special case for `gridx == 1` and divides by zero there (0 in this rational
embedding, infinity under IEEE floats — in either case not 1).  Only the z
axis (line 193) has the slab special case. -/
theorem grid_size_x_one_not_slab : grid_size_x 0 2 1 ≠ 1 := by
  simp only [grid_size_x]
  norm_num

/-- C4 amended: for grid resolutions of at least 2, each axis size is
`axisExtent * gridN / (gridN - 1)` — for the z axis only when the input is
3-D — and that choice indeed makes the edge cells of the construction loop
coincide with the bounding-box edges (the loop coordinate of column 0 is
`minx`, of column `gridx-1` is `maxx`, and every loop coordinate agrees with
the cell-center geometry `mid - size/2 + (j + 1/2) * (size/gridN)` that the
kernel build options encode).  Only the z axis collapses to the 1-unit-thick
slab, and it does so whenever `gridz = 1` or the input dimension is below 3. -/
theorem grid_size_spec (minx maxx miny maxy minz maxz : ℚ) (gx gy gz dim : ℕ)
    (hgx : 2 ≤ gx) :
    grid_size_x minx maxx gx = (maxx - minx) * (gx : ℚ) / ((gx : ℚ) - 1) ∧
    grid_size_y miny maxy gy = (maxy - miny) * (gy : ℚ) / ((gy : ℚ) - 1) ∧
    (3 ≤ dim → 2 ≤ gz →
      grid_size_z minz maxz dim gz = (maxz - minz) * (gz : ℚ) / ((gz : ℚ) - 1)) ∧
    (dim < 3 ∨ gz = 1 → grid_size_z minz maxz dim gz = 1) ∧
    cellCoordX minx maxx gx 0 = minx ∧
    cellCoordX minx maxx gx (gx - 1) = maxx ∧
    ∀ j : ℕ, cellCoordX minx maxx gx j =
      grid_mid_x minx maxx - grid_size_x minx maxx gx / 2
        + ((j : ℚ) + 1/2) * (grid_size_x minx maxx gx / (gx : ℚ)) := by
  have hgx0 : (gx : ℚ) ≠ 0 := by
    have : (0 : ℚ) < (gx : ℚ) := by exact_mod_cast Nat.lt_of_lt_of_le (by norm_num) hgx
    exact ne_of_gt this
  have hgx1 : (gx : ℚ) - 1 ≠ 0 := by
    have h2 : (2 : ℚ) ≤ (gx : ℚ) := by exact_mod_cast hgx
    intro hc
    have : (gx : ℚ) = 1 := by linarith
    linarith
  refine ⟨rfl, rfl, ?_, ?_, ?_, ?_, ?_⟩
  · intro hdim hgz
    have : ¬ (dim < 3 ∨ gz = 1) := by omega
    simp [grid_size_z, this]
  · intro h
    simp [grid_size_z, h]
  · simp [cellCoordX]
  · have hcast : ((gx - 1 : ℕ) : ℚ) = (gx : ℚ) - 1 := by
      have : (1 : ℕ) ≤ gx := by omega
      push_cast [Nat.cast_sub this]
      ring
    simp only [cellCoordX, hcast]
    field_simp
  · intro j
    simp only [cellCoordX, grid_mid_x, grid_size_x]
    field_simp
    ring

/-- Witness for the amended C4 theorem at gx = gy = gz = 2, dim = 3,
x-bounds [0,2], y-bounds [0,3], z-bounds [0,4]. -/
theorem grid_size_spec_witness :
    (2 ≤ 2) ∧
    (grid_size_x 0 2 2 = (2 - 0) * (2 : ℚ) / ((2 : ℚ) - 1) ∧
     grid_size_y 0 3 2 = (3 - 0) * (2 : ℚ) / ((2 : ℚ) - 1) ∧
     (3 ≤ 3 → 2 ≤ 2 →
       grid_size_z 0 4 3 2 = (4 - 0) * (2 : ℚ) / ((2 : ℚ) - 1)) ∧
     (3 < 3 ∨ 2 = 1 → grid_size_z 0 4 3 2 = 1) ∧
     cellCoordX 0 2 2 0 = 0 ∧
     cellCoordX 0 2 2 (2 - 1) = 2 ∧
     ∀ j : ℕ, cellCoordX 0 2 2 j =
       grid_mid_x 0 2 - grid_size_x 0 2 2 / 2
         + ((j : ℚ) + 1/2) * (grid_size_x 0 2 2 / (2 : ℚ))) :=
  ⟨le_refl 2, grid_size_spec 0 2 0 3 0 4 2 2 2 3 (le_refl 2)⟩

/-- C7: calling `setRenderingSettings` before any `constructRegularGrid`, or
`renderToBuffer` before `setRenderingSettings` or while the display mode is
AllIntensities, emits exactly the diagnostic, performs nothing, and leaves the
renderer state unchanged. -/
theorem out_of_order_calls_noop (xp yp lp : ℕ) (m : DisplayMode) :
    (∀ s : RendererState, s.hasRegularGrid = false →
      setRenderingSettingsState s xp yp lp m = (s, [setSettingsBeforeGridMsg], false)) ∧
    (∀ s : RendererState, s.hasRenderingSettings = false →
      renderToBufferState s = (s, [renderBeforeSettingsMsg], false)) ∧
    (∀ s : RendererState, s.hasRenderingSettings = true →
      s.displayMode = DisplayMode.AllIntensities →
      renderToBufferState s = (s, [renderAllIntensitiesMsg], false)) := by
  refine ⟨?_, ?_, ?_⟩
  · intro s h
    simp [setRenderingSettingsState, h]
  · intro s h
    simp [renderToBufferState, h]
  · intro s h1 h2
    simp [renderToBufferState, h1, h2]

/-- Witness for C7 at the initial state and at a configured AllIntensities
state. -/
theorem out_of_order_calls_noop_witness :
    (initRendererState.hasRegularGrid = false ∧
     setRenderingSettingsState initRendererState 2 2 1 DisplayMode.AllIntensities =
       (initRendererState, [setSettingsBeforeGridMsg], false)) ∧
    (initRendererState.hasRenderingSettings = false ∧
     renderToBufferState initRendererState = (initRendererState, [renderBeforeSettingsMsg], false)) ∧
    (allIntensitiesReadyState.hasRenderingSettings = true ∧
     allIntensitiesReadyState.displayMode = DisplayMode.AllIntensities ∧
     renderToBufferState allIntensitiesReadyState =
       (allIntensitiesReadyState, [renderAllIntensitiesMsg], false)) :=
  ⟨⟨rfl, (out_of_order_calls_noop 2 2 1 DisplayMode.AllIntensities).1 initRendererState rfl⟩,
   ⟨rfl, (out_of_order_calls_noop 2 2 1 DisplayMode.AllIntensities).2.1 initRendererState rfl⟩,
   ⟨rfl, rfl, (out_of_order_calls_noop 2 2 1 DisplayMode.AllIntensities).2.2
      allIntensitiesReadyState rfl rfl⟩⟩

/-- C10: `renderToCube` with an empty file name and a null cube pointer
returns immediately for every renderer state: nothing rendered, no file, no
stored cube, no diagnostic (in particular no sequencing diagnostic even
without rendering settings), and the state unchanged. -/
theorem renderToCube_no_output_noop (s : RendererState) :
    renderToCubeState s true true =
      { state := s, diags := [], performed := false, wroteFile := false,
        storedCube := false } := by
  simp [renderToCubeState]

lemma renderToBufferState_fst (s : RendererState) : (renderToBufferState s).1 = s := by
  unfold renderToBufferState
  split
  · rfl
  split <;> rfl

lemma renderToCubeState_state (s : RendererState) (fe pn : Bool) :
    (renderToCubeState s fe pn).state = s := by
  unfold renderToCubeState
  split
  · rfl
  split <;> rfl

lemma setRenderingSettingsState_hasRegularGrid (s : RendererState) (xp yp lp : ℕ)
    (m : DisplayMode) :
    (setRenderingSettingsState s xp yp lp m).1.hasRegularGrid = s.hasRegularGrid := by
  unfold setRenderingSettingsState
  split <;> rfl

lemma stepRenderer_hasRegularGrid (s : RendererState) (e : RendererEvent) :
    (stepRenderer s e).hasRegularGrid = (s.hasRegularGrid || e.isConstruct) := by
  cases e with
  | construct gx gy gz => simp [stepRenderer, constructRegularGridState, RendererEvent.isConstruct]
  | setSettings xp yp lp m =>
      simp [stepRenderer, setRenderingSettingsState_hasRegularGrid, RendererEvent.isConstruct]
  | toBuffer => simp [stepRenderer, renderToBufferState_fst, RendererEvent.isConstruct]
  | toCube fe pn => simp [stepRenderer, renderToCubeState_state, RendererEvent.isConstruct]

lemma foldl_stepRenderer_hasRegularGrid :
    ∀ (t : List RendererEvent) (s : RendererState),
      (t.foldl stepRenderer s).hasRegularGrid =
        (s.hasRegularGrid || t.any RendererEvent.isConstruct) := by
  intro t
  induction t with
  | nil => intro s; simp
  | cons e rest ih =>
      intro s
      simp only [List.foldl_cons, List.any_cons, ih, stepRenderer_hasRegularGrid]
      cases s.hasRegularGrid <;> cases e.isConstruct <;> simp

/-- The rendering-settings flag is set exactly by a `setSettings` call finding
a bound grid, and cleared by every `construct` call: if the flag is set after
running a trace from state `s`, either some `setSettings` call in the trace
had a grid available (from `s` or from an earlier `construct`) and no
`construct` follows it, or the flag was already set in `s` and the trace has
no `construct` at all. -/
lemma foldl_stepRenderer_hasRenderingSettings :
    ∀ (t : List RendererEvent) (s : RendererState),
      (t.foldl stepRenderer s).hasRenderingSettings = true →
      (∃ t₁ e t₂, t = t₁ ++ e :: t₂ ∧ e.isSetSettings = true ∧
        (s.hasRegularGrid = true ∨ ∃ c ∈ t₁, c.isConstruct = true) ∧
        ∀ c ∈ t₂, c.isConstruct = false) ∨
      (s.hasRenderingSettings = true ∧ ∀ c ∈ t, c.isConstruct = false) := by
  intro t
  induction t with
  | nil =>
      intro s h
      exact Or.inr ⟨h, by simp⟩
  | cons e rest ih =>
      intro s h
      rw [List.foldl_cons] at h
      rcases ih (stepRenderer s e) h with hL | hR
      · -- a successful setSettings inside `rest`
        obtain ⟨t₁, e', t₂, hrest, hSRS, hgrid, hafter⟩ := hL
        refine Or.inl ⟨e :: t₁, e', t₂, by simp [hrest], hSRS, ?_, hafter⟩
        rcases hgrid with hg | ⟨c, hc, hcc⟩
        · rw [stepRenderer_hasRegularGrid] at hg
          rcases Bool.or_eq_true_iff.mp hg with hg1 | hg2
          · exact Or.inl hg1
          · exact Or.inr ⟨e, by simp, hg2⟩
        · exact Or.inr ⟨c, by simp [hc], hcc⟩
      · -- the flag survived `rest` untouched: it was set by `e` or already in `s`
        obtain ⟨hset, hfree⟩ := hR
        cases e with
        | construct gx gy gz =>
            simp [stepRenderer, constructRegularGridState] at hset
        | setSettings xp yp lp m =>
            by_cases hg : s.hasRegularGrid = true
            · exact Or.inl ⟨[], .setSettings xp yp lp m, rest, rfl, rfl, Or.inl hg, hfree⟩
            · have hs : stepRenderer s (.setSettings xp yp lp m) = s := by
                simp only [stepRenderer, setRenderingSettingsState]
                have : s.hasRegularGrid = false := by
                  cases hsg : s.hasRegularGrid
                  · rfl
                  · exact absurd hsg hg
                simp [this]
              rw [hs] at hset
              refine Or.inr ⟨hset, ?_⟩
              intro c hc
              rcases List.mem_cons.mp hc with rfl | hc2
              · rfl
              · exact hfree c hc2
        | toBuffer =>
            simp only [stepRenderer, renderToBufferState_fst] at hset
            refine Or.inr ⟨hset, ?_⟩
            intro c hc
            rcases List.mem_cons.mp hc with rfl | hc2
            · rfl
            · exact hfree c hc2
        | toCube fe pn =>
            rw [stepRenderer, renderToCubeState_state] at hset
            refine Or.inr ⟨hset, ?_⟩
            intro c hc
            rcases List.mem_cons.mp hc with rfl | hc2
            · rfl
            · exact hfree c hc2

/-- C8: in every reachable renderer state, a render call (`renderToBuffer`,
or `renderToCube` with any arguments) proceeds only if some
`setRenderingSettings` call was made after the most recent
`constructRegularGrid` (which itself must exist); and every
`constructRegularGrid` call clears the configured-settings flag, so a render
issued right after it is skipped. -/
theorem render_requires_settings_after_grid (t : List RendererEvent) (fe pn : Bool)
    (h : (renderToBufferState (runRenderer t)).2.2 = true ∨
         (renderToCubeState (runRenderer t) fe pn).performed = true) :
    (∃ t₁ e t₂, t = t₁ ++ e :: t₂ ∧ e.isSetSettings = true ∧
      (∃ c ∈ t₁, c.isConstruct = true) ∧
      ∀ c ∈ t₂, c.isConstruct = false) ∧
    ∀ gx gy gz,
      (runRenderer (t ++ [RendererEvent.construct gx gy gz])).hasRenderingSettings = false := by
  have hset : (runRenderer t).hasRenderingSettings = true := by
    rcases h with h1 | h2
    · by_contra hno
      have hfalse : (runRenderer t).hasRenderingSettings = false := by
        cases hh : (runRenderer t).hasRenderingSettings
        · rfl
        · exact absurd hh hno
      rw [renderToBufferState, hfalse] at h1
      simp at h1
    · by_contra hno
      have hfalse : (runRenderer t).hasRenderingSettings = false := by
        cases hh : (runRenderer t).hasRenderingSettings
        · rfl
        · exact absurd hh hno
      rw [renderToCubeState, hfalse] at h2
      by_cases hfp : (fe && pn) = true <;> simp [hfp] at h2
  constructor
  · rcases foldl_stepRenderer_hasRenderingSettings t initRendererState hset with hL | hR
    · obtain ⟨t₁, e, t₂, ht, hSRS, hgrid, hafter⟩ := hL
      rcases hgrid with hg | hg
      · simp [initRendererState] at hg
      · exact ⟨t₁, e, t₂, ht, hSRS, hg, hafter⟩
    · simp [initRendererState] at hR
  · intro gx gy gz
    simp [runRenderer, List.foldl_append, stepRenderer, constructRegularGridState]

/-- Witness for C8: after `construct` then `setSettings`, `renderToBuffer`
proceeds, and the conclusion holds for that trace. -/
theorem render_requires_settings_after_grid_witness :
    ((renderToBufferState (runRenderer
        [RendererEvent.construct 2 2 2,
         RendererEvent.setSettings 2 2 1 DisplayMode.IntegratedIntensity])).2.2 = true ∨
     (renderToCubeState (runRenderer
        [RendererEvent.construct 2 2 2,
         RendererEvent.setSettings 2 2 1 DisplayMode.IntegratedIntensity]) false true).performed
       = true) ∧
    ((∃ t₁ e t₂,
        [RendererEvent.construct 2 2 2,
         RendererEvent.setSettings 2 2 1 DisplayMode.IntegratedIntensity] = t₁ ++ e :: t₂ ∧
        e.isSetSettings = true ∧ (∃ c ∈ t₁, c.isConstruct = true) ∧
        ∀ c ∈ t₂, c.isConstruct = false) ∧
     ∀ gx gy gz,
       (runRenderer ([RendererEvent.construct 2 2 2,
          RendererEvent.setSettings 2 2 1 DisplayMode.IntegratedIntensity] ++
            [RendererEvent.construct gx gy gz])).hasRenderingSettings = false) :=
  ⟨Or.inl (by decide),
   render_requires_settings_after_grid
     [RendererEvent.construct 2 2 2,
      RendererEvent.setSettings 2 2 1 DisplayMode.IntegratedIntensity] false true
     (Or.inl (by decide))⟩

lemma renderToCube_ready (s : RendererState) (hs : s.hasRenderingSettings = true)
    (fe pn : Bool) :
    (renderToCubeState s fe pn).performed = (!fe || !pn) ∧
    (renderToCubeState s fe pn).wroteFile = !fe ∧
    (renderToCubeState s fe pn).storedCube = !pn := by
  cases fe <;> cases pn <;> simp [renderToCubeState, hs]

lemma sweepLoop_spec (s : RendererState) (nl nb : ℕ) (e : Bool) :
    ∀ (l : List (ℕ × ℕ)) (acc : SweepAccum),
      (l.foldl (sweepStep s nl nb e) acc).rendered =
        acc.rendered ++
          l.filter (fun p => (renderToCubeState s e (!(isLastPair nl nb p))).performed) ∧
      (l.foldl (sweepStep s nl nb e) acc).filesWritten =
        acc.filesWritten ++
          l.filter (fun p => (renderToCubeState s e (!(isLastPair nl nb p))).wroteFile) ∧
      (l.foldl (sweepStep s nl nb e) acc).returned =
        l.foldl
          (fun a p =>
            if (renderToCubeState s e (!(isLastPair nl nb p))).storedCube then some p else a)
          acc.returned := by
  intro l
  induction l with
  | nil => intro acc; simp
  | cons p r ih =>
      intro acc
      obtain ⟨ih1, ih2, ih3⟩ := ih (sweepStep s nl nb e acc p)
      refine ⟨?_, ?_, ?_⟩
      · rw [List.foldl_cons, ih1, List.filter_cons]
        by_cases hp : (renderToCubeState s e (!(isLastPair nl nb p))).performed = true <;>
          simp [sweepStep, hp, List.append_assoc]
      · rw [List.foldl_cons, ih2, List.filter_cons]
        by_cases hp : (renderToCubeState s e (!(isLastPair nl nb p))).wroteFile = true <;>
          simp [sweepStep, hp, List.append_assoc]
      · rw [List.foldl_cons, ih3, List.foldl_cons]
        by_cases hp : (renderToCubeState s e (!(isLastPair nl nb p))).storedCube = true <;>
          simp [sweepStep, hp]

lemma foldl_mark_last (c : ℕ × ℕ) (f : ℕ × ℕ → Bool) (hf : ∀ p, f p = true ↔ p = c) :
    ∀ (l : List (ℕ × ℕ)) (a : Option (ℕ × ℕ)),
      l.foldl (fun a p => if f p then some p else a) a = if c ∈ l then some c else a := by
  intro l
  induction l with
  | nil => intro a; simp
  | cons p r ih =>
      intro a
      rw [List.foldl_cons]
      by_cases hp : f p = true
      · have hpc : p = c := (hf p).mp hp
        subst hpc
        simp [hp, ih]
      · have hpc : c ≠ p := fun hc => hp ((hf p).mpr hc.symm)
        simp [hp, ih, List.mem_cons, hpc]

lemma isLastPair_iff (nl nb : ℕ) (p : ℕ × ℕ) :
    isLastPair nl nb p = true ↔ p = (nl - 1, nb - 1) := by
  simp [isLastPair, Prod.ext_iff]

lemma lastPair_mem_sweepIndexPairs (nl nb : ℕ) (h1 : 0 < nl) (h2 : 0 < nb) :
    (nl - 1, nb - 1) ∈ sweepIndexPairs nl nb := by
  simp only [sweepIndexPairs, List.mem_flatMap, List.mem_map, List.mem_range]
  exact ⟨nl - 1, by omega, nb - 1, by omega, rfl⟩

/-- C5 counterexample: with two l-angles, one b-angle and an EMPTY output
path, the sweep renders only the final pair — the first pair's `renderToCube`
call hits the no-output early exit — so "renders exactly one frame for every
(l, b) pair" fails as stated. -/
theorem sweep_skips_pairs_without_outfile :
    (renderSweepModel 2 2 2 1 2 1 true).rendered ≠ sweepIndexPairs 2 1 := by
  decide

/-- C5 amended: the sweep builds the grid once and visits the full Cartesian
product in order (l outer, b inner); with a nonempty output path every pair is
rendered and written to its per-angle file; with an empty output path only the
final pair is rendered (the other calls take `renderToCube`'s no-output early
exit) and no file is written; in both cases the returned cube holds only the
final pair's frame (and exists whenever both angle lists are nonempty). -/
theorem renderSweep_spec (xp yp zp lp nl nb : ℕ) :
    (renderSweepModel xp yp zp lp nl nb false).rendered = sweepIndexPairs nl nb ∧
    (renderSweepModel xp yp zp lp nl nb false).filesWritten = sweepIndexPairs nl nb ∧
    (renderSweepModel xp yp zp lp nl nb true).rendered =
      (sweepIndexPairs nl nb).filter (isLastPair nl nb) ∧
    (renderSweepModel xp yp zp lp nl nb true).filesWritten = [] ∧
    (∀ e : Bool, ∀ q, (renderSweepModel xp yp zp lp nl nb e).returned = some q →
      q = (nl - 1, nb - 1)) ∧
    (0 < nl → 0 < nb → ∀ e : Bool,
      (renderSweepModel xp yp zp lp nl nb e).returned = some (nl - 1, nb - 1)) := by
  have hs : ((setRenderingSettingsState
      (constructRegularGridState initRendererState xp yp zp) xp yp lp
      DisplayMode.AllIntensities).1).hasRenderingSettings = true := by
    simp [setRenderingSettingsState, constructRegularGridState]
  set s2 := (setRenderingSettingsState
      (constructRegularGridState initRendererState xp yp zp) xp yp lp
      DisplayMode.AllIntensities).1 with hs2
  have hret : ∀ e : Bool, (renderSweepModel xp yp zp lp nl nb e).returned =
      (if (nl - 1, nb - 1) ∈ sweepIndexPairs nl nb then some (nl - 1, nb - 1) else none) := by
    intro e
    have h3 := (sweepLoop_spec s2 nl nb e (sweepIndexPairs nl nb)
      { rendered := [], filesWritten := [], returned := none }).2.2
    have hmark := foldl_mark_last (nl - 1, nb - 1)
      (fun p => (renderToCubeState s2 e (!(isLastPair nl nb p))).storedCube)
      (fun p => by
        show (renderToCubeState s2 e (!(isLastPair nl nb p))).storedCube = true ↔
          p = (nl - 1, nb - 1)
        rw [(renderToCube_ready s2 hs e (!(isLastPair nl nb p))).2.2]
        simp [isLastPair_iff])
      (sweepIndexPairs nl nb) none
    exact h3.trans hmark
  refine ⟨?_, ?_, ?_, ?_, ?_, ?_⟩
  · have h1 := (sweepLoop_spec s2 nl nb false (sweepIndexPairs nl nb)
      { rendered := [], filesWritten := [], returned := none }).1
    rw [renderSweepModel, ← hs2, h1, List.nil_append]
    apply List.filter_eq_self.mpr
    intro p _
    rw [(renderToCube_ready s2 hs false (!(isLastPair nl nb p))).1]
    simp
  · have h2 := (sweepLoop_spec s2 nl nb false (sweepIndexPairs nl nb)
      { rendered := [], filesWritten := [], returned := none }).2.1
    rw [renderSweepModel, ← hs2, h2, List.nil_append]
    apply List.filter_eq_self.mpr
    intro p _
    rw [(renderToCube_ready s2 hs false (!(isLastPair nl nb p))).2.1]
    simp
  · have h1 := (sweepLoop_spec s2 nl nb true (sweepIndexPairs nl nb)
      { rendered := [], filesWritten := [], returned := none }).1
    rw [renderSweepModel, ← hs2, h1, List.nil_append]
    apply List.filter_congr
    intro p _
    rw [(renderToCube_ready s2 hs true (!(isLastPair nl nb p))).1]
    simp
  · have h2 := (sweepLoop_spec s2 nl nb true (sweepIndexPairs nl nb)
      { rendered := [], filesWritten := [], returned := none }).2.1
    rw [renderSweepModel, ← hs2, h2, List.nil_append]
    apply List.filter_eq_nil_iff.mpr
    intro p _
    rw [(renderToCube_ready s2 hs true (!(isLastPair nl nb p))).2.1]
    simp
  · intro e q hq
    rw [hret e] at hq
    by_cases hm : (nl - 1, nb - 1) ∈ sweepIndexPairs nl nb
    · rw [if_pos hm] at hq
      exact (Option.some_inj.mp hq).symm
    · rw [if_neg hm] at hq
      exact absurd hq (by simp)
  · intro h1 h2 e
    rw [hret e, if_pos (lastPair_mem_sweepIndexPairs nl nb h1 h2)]

/-- Witness for the amended C5 theorem: two l-angles, one b-angle, empty
output path — the returned cube holds the frame of pair (1, 0). -/
theorem renderSweep_spec_witness :
    (0 < 2 ∧ 0 < 1) ∧
    (renderSweepModel 2 2 2 1 2 1 true).returned = some (2 - 1, 1 - 1) :=
  ⟨⟨by decide, by decide⟩,
   (renderSweep_spec 2 2 2 1 2 1).2.2.2.2.2 (by decide) (by decide) true⟩

/-- C6: for every grid cell whose bounded query finds a source point, the
stored emissivity equals the stored (units-converted) intensity times the
source line width times the Gaussian-integral constant; equivalently
`1e8 * peak * fwhm * 1.064467019`. -/
theorem emissivity_formula (sd : SourceData) (gx gy gz : ℕ) (mdx mdy mdz : ℚ)
    (i j k n : ℕ) (h : gridCellQuery sd gx gy gz mdx mdy mdz i j k = some n) :
    cellEmissivity sd (gridCellQuery sd gx gy gz mdx mdy mdz i j k) =
      (cellFloat8 sd (gridCellQuery sd gx gy gz mdx mdy mdz i j k)).getD 0 0 *
        sd.fwhmvec.getD n 0 * gaussianConst ∧
    cellEmissivity sd (gridCellQuery sd gx gy gz mdx mdy mdz i j k) =
      conversionFactor * sd.peakvec.getD n 0 * sd.fwhmvec.getD n 0 * gaussianConst := by
  rw [h]
  exact ⟨by simp [cellEmissivity, cellFloat8], rfl⟩

/-- Witness for C6: on a 2x2x2 grid over the one-point cloud with bound 1 on
every axis, cell (0,0,0) finds point 0 and the emissivity relation holds. -/
theorem emissivity_formula_witness :
    gridCellQuery sampleSourceData 2 2 2 1 1 1 0 0 0 = some 0 ∧
    (cellEmissivity sampleSourceData (gridCellQuery sampleSourceData 2 2 2 1 1 1 0 0 0) =
      (cellFloat8 sampleSourceData
          (gridCellQuery sampleSourceData 2 2 2 1 1 1 0 0 0)).getD 0 0 *
        sampleSourceData.fwhmvec.getD 0 0 * gaussianConst ∧
     cellEmissivity sampleSourceData (gridCellQuery sampleSourceData 2 2 2 1 1 1 0 0 0) =
      conversionFactor * sampleSourceData.peakvec.getD 0 0 *
        sampleSourceData.fwhmvec.getD 0 0 * gaussianConst) :=
  ⟨by norm_num [gridCellQuery, queryNearestWithin, SourceData.ngrid, sampleSourceData,
      cellCoordX, cellCoordY, cellCoordZ, deltaZ, SourceData.minx, SourceData.maxx,
      SourceData.miny, SourceData.maxy, SourceData.minz, SourceData.maxz, listMin,
      listMax, SourceData.px, SourceData.py, SourceData.pz, SourceData.dist2,
      List.range_succ],
   emissivity_formula sampleSourceData 2 2 2 1 1 1 0 0 0 0
     (by norm_num [gridCellQuery, queryNearestWithin, SourceData.ngrid, sampleSourceData,
      cellCoordX, cellCoordY, cellCoordZ, deltaZ, SourceData.minx, SourceData.maxx,
      SourceData.miny, SourceData.maxy, SourceData.minz, SourceData.maxz, listMin,
      listMax, SourceData.px, SourceData.py, SourceData.pz, SourceData.dist2,
      List.range_succ])⟩

/-- C2 failing input: on a 2x2x2 grid with distance bound 0 on every axis, no
cell finds a source point, so per the loop every cell should hold the defined
default (intensity 0, line-width 1, velocity 0, emissivity 0) — but because
the emissivity host pointer aliases the points host memory (the wrong-buffer
map at line 203), the emissivity write of cell 1 lands in cell 0's line-width
slot (slot 1): the stored line-width of cell 0 is 0, not the default 1 the
loop wrote there. -/
theorem constructHostMem_cell0_clobbered :
    constructHostMem sampleSourceData 2 2 2 0 0 0 1 = some 0 ∧
    (cellFloat8 sampleSourceData
        (gridCellQuery sampleSourceData 2 2 2 0 0 0 0 0 0)).getD 1 0 = 1 := by
  constructor
  · norm_num [constructHostMem, List.range_succ, List.foldl_append, List.foldl_cons,
      List.foldl_nil, writeSlots, cellFloat8, cellEmissivity, gridCellQuery, queryNearestWithin, SourceData.ngrid, sampleSourceData,
      cellCoordX, cellCoordY, cellCoordZ, deltaZ, SourceData.minx, SourceData.maxx,
      SourceData.miny, SourceData.maxy, SourceData.minz, SourceData.maxz, listMin,
      listMax, SourceData.px, SourceData.py, SourceData.pz, SourceData.dist2,
      List.range_succ]
  · norm_num [cellFloat8, gridCellQuery, queryNearestWithin, SourceData.ngrid, sampleSourceData,
      cellCoordX, cellCoordY, cellCoordZ, deltaZ, SourceData.minx, SourceData.maxx,
      SourceData.miny, SourceData.maxy, SourceData.minz, SourceData.maxz, listMin,
      listMax, SourceData.px, SourceData.py, SourceData.pz, SourceData.dist2,
      List.range_succ]

/-- C1: the chunked issue/drain loop does NOT extract every pixel for every
chunk size.  With 4 pixels (x_pixel = y_pixel = 2) and one wavelength sample:
chunk size 7 yields the full sequential reference frame, chunk size 3 does
too, but chunk size 1 never extracts the last pixel and chunk size 4
(= pixel count) extracts nothing — the final drain reads
`pixels % chunk_size = 0` pixels whenever the chunk size divides the pixel
count, although a full chunk is still in flight.  The frames for chunk sizes
{1, 7, pixelCount} are therefore not identical. -/
theorem renderFrame_chunk_divergence :
    (∀ t : Fin 4, renderFrame (fun n => n) 1 7 4 t.val = some t.val) ∧
    (∀ t : Fin 4, renderFrame (fun n => n) 1 3 4 t.val = some t.val) ∧
    renderFrame (fun n => n) 1 1 4 3 = none ∧
    (∀ t : Fin 4, renderFrame (fun n => n) 1 4 4 t.val = none) := by
  decide

lemma getBuf_setBuf_same {α : Type} (s : ChunkState α) (ch : Bool) (b : ℕ → Option α) :
    getBuf (setBuf s ch b) ch = b := by
  cases ch <;> simp [getBuf, setBuf]

lemma getBuf_setBuf_not {α : Type} (s : ChunkState α) (ch : Bool) (b : ℕ → Option α) :
    getBuf (setBuf s (!ch) b) ch = getBuf s ch := by
  cases ch <;> simp [getBuf, setBuf]

lemma out_setBuf {α : Type} (s : ChunkState α) (ch : Bool) (b : ℕ → Option α) :
    (setBuf s ch b).out = s.out := by
  cases ch <;> simp [setBuf]

lemma getBuf_extractData {α : Type} (lp : ℕ) (s : ChunkState α) (ch ch2 : Bool)
    (pj off : ℕ) : getBuf (extractData lp s ch pj off) ch2 = getBuf s ch2 := by
  cases ch2 <;> simp [getBuf, extractData]

/-- Invariant of the ping-pong loop: entering the loop at offset
`chunk * m` with the previous chunk's results in channel `ch`'s buffer and all
earlier chunks already extracted, the loop exits at some offset `chunk * mf`
at or past `pixels`, with the chunk starting at `chunk * (mf - 1)` still
undrained in the exit channel's buffer and everything before it extracted. -/
lemma renderLoop_post {α : Type} (f : ℕ → α) (lp chunk pixels : ℕ) (hc : 1 ≤ chunk) :
    ∀ (fuel m : ℕ) (s : ChunkState α) (ch : Bool),
      1 ≤ m →
      chunk * (m - 1) < pixels →
      pixels - chunk * m ≤ fuel →
      (∀ t, t < min chunk (pixels - chunk * (m - 1)) * lp →
        getBuf s ch t = some (f (chunk * (m - 1) * lp + t))) →
      (∀ t, t < chunk * (m - 1) * lp → s.out t = some (f t)) →
      ∃ mf, 1 ≤ mf ∧ chunk * (mf - 1) < pixels ∧ pixels ≤ chunk * mf ∧
        (∀ t, t < min chunk (pixels - chunk * (mf - 1)) * lp →
          getBuf (renderLoop f lp chunk pixels fuel s ch (chunk * m)).1
              (renderLoop f lp chunk pixels fuel s ch (chunk * m)).2 t =
            some (f (chunk * (mf - 1) * lp + t))) ∧
        (∀ t, t < chunk * (mf - 1) * lp →
          (renderLoop f lp chunk pixels fuel s ch (chunk * m)).1.out t = some (f t)) := by
  intro fuel
  induction fuel with
  | zero =>
      intro m s ch hm hprev hfuel hbuf hout
      have hple : pixels ≤ chunk * m := by omega
      exact ⟨m, hm, hprev, hple, fun t ht => hbuf t ht, fun t ht => hout t ht⟩
  | succ fuel ih =>
      intro m s ch hm hprev hfuel hbuf hout
      obtain ⟨k, rfl⟩ : ∃ k, m = k + 1 := ⟨m - 1, by omega⟩
      simp only [Nat.add_sub_cancel] at hprev hbuf hout
      by_cases hlt : chunk * (k + 1) < pixels
      · -- the loop takes another iteration
        have hstep : renderLoop f lp chunk pixels (fuel + 1) s ch (chunk * (k + 1)) =
            renderLoop f lp chunk pixels fuel
              (extractData lp
                (enqueueKernel f lp s (!ch) (chunk * (k + 1))
                  (min chunk (pixels - chunk * (k + 1)))) ch chunk (chunk * (k + 1) - chunk))
              (!ch) (chunk * (k + 1) + chunk) := by
          simp only [renderLoop]
          rw [if_pos hlt]
        have hdist1 : chunk * (k + 1) = chunk * k + chunk := by ring
        have hdist2 : chunk * (k + 2) = chunk * (k + 1) + chunk := by ring
        have hdistlp : chunk * (k + 1) * lp = chunk * k * lp + chunk * lp := by ring
        have hsub : chunk * (k + 1) - chunk = chunk * k := by omega
        set s1 := enqueueKernel f lp s (!ch) (chunk * (k + 1))
          (min chunk (pixels - chunk * (k + 1))) with hs1
        set s2 := extractData lp s1 ch chunk (chunk * (k + 1) - chunk) with hs2
        -- the entry buffer bound for this iteration: the previous chunk is full
        have hminfull : min chunk (pixels - chunk * k) = chunk := by omega
        rw [hminfull] at hbuf
        have hk2 : k + 2 - 1 = k + 1 := by omega
        -- invariant for the recursive call
        have hbuf1 : ∀ t, t < min chunk (pixels - chunk * (k + 1)) * lp →
            getBuf s2 (!ch) t = some (f (chunk * (k + 1) * lp + t)) := by
          intro t ht
          rw [hs2, getBuf_extractData, hs1, enqueueKernel, getBuf_setBuf_same]
          rw [if_pos ht]
        have hout1 : ∀ t, t < chunk * (k + 1) * lp → s2.out t = some (f t) := by
          intro t ht
          rw [hs2, extractData]
          simp only [hsub]
          by_cases hwin : chunk * k * lp ≤ t ∧ t < chunk * k * lp + chunk * lp
          · rw [if_pos hwin]
            rw [hs1, enqueueKernel, getBuf_setBuf_not]
            have hbt := hbuf (t - chunk * k * lp) (by omega)
            rw [hbt]
            congr 2
            omega
          · rw [if_neg hwin]
            rw [hs1, enqueueKernel, out_setBuf]
            exact hout t (by omega)
        have hres := ih (k + 2) s2 (!ch) (by omega)
          (by rw [hk2]; simpa using hlt)
          (by rw [hdist2]; omega)
          (by rw [hk2]; exact hbuf1)
          (by rw [hk2]; exact hout1)
        rw [hdist2] at hres
        rw [hstep]
        exact hres
      · -- the loop exits here
        have hstop : renderLoop f lp chunk pixels (fuel + 1) s ch (chunk * (k + 1)) = (s, ch) := by
          simp only [renderLoop]
          rw [if_neg hlt]
        rw [hstop]
        exact ⟨k + 1, by omega, by simpa using hprev, by omega,
          by simpa using hbuf, by simpa using hout⟩

/-- When the chunk size does not divide the pixel count, the
issue/drain scheme of `render` is complete: every slot of the host frame
buffer ends up holding the sequential per-pixel reference value.  (When the chunk size
divides the pixel count this fails — see the C1 theorem — because the final
drain of `pixels % chunk_size` pixels is then empty.) -/
theorem renderFrame_all_pixels_when_not_dividing {α : Type} (f : ℕ → α)
    (lp chunk pixels : ℕ) (hc : 1 ≤ chunk) (hnd : pixels % chunk ≠ 0) :
    ∀ t, t < pixels * lp → renderFrame f lp chunk pixels t = some (f t) := by
  have hpix : 0 < pixels := by
    rcases Nat.eq_zero_or_pos pixels with h0 | h
    · rw [h0] at hnd
      simp at hnd
    · exact h
  intro t ht
  set s0 : ChunkState α := ⟨fun _ => none, fun _ => none, fun _ => none⟩ with hs0
  set s1 := enqueueKernel f lp s0 false 0 (min chunk pixels) with hs1
  have hbuf0 : ∀ u, u < min chunk (pixels - chunk * (1 - 1)) * lp →
      getBuf s1 false u = some (f (chunk * (1 - 1) * lp + u)) := by
    intro u hu
    simp only [Nat.sub_self, Nat.mul_zero, Nat.zero_mul, Nat.zero_add, Nat.sub_zero] at hu ⊢
    rw [hs1, enqueueKernel, getBuf_setBuf_same]
    rw [if_pos (by simpa using hu)]
    simp
  have hout0 : ∀ u, u < chunk * (1 - 1) * lp → s1.out u = some (f u) := by
    intro u hu
    simp at hu
  obtain ⟨mf, hmf1, hmfprev, hmfle, hbufF, houtF⟩ :=
    renderLoop_post f lp chunk pixels hc pixels 1 s1 false (le_refl 1)
      (by simpa using hpix) (by omega) hbuf0 hout0
  rw [Nat.mul_one] at hbufF houtF
  -- the chunk size does not divide the pixel count, so the loop exited strictly past it
  have hstrict : pixels < chunk * mf := by
    rcases Nat.lt_or_ge pixels (chunk * mf) with h | h
    · exact h
    · have : pixels = chunk * mf := by omega
      rw [this] at hnd
      simp [Nat.mul_mod_right] at hnd
  have hdiv : pixels / chunk = mf - 1 := by
    have h1 : (mf - 1) * chunk ≤ pixels := by
      have := hmfprev
      calc (mf - 1) * chunk = chunk * (mf - 1) := by ring
        _ ≤ pixels := le_of_lt hmfprev
    have h2 : pixels < (mf - 1 + 1) * chunk := by
      have : mf - 1 + 1 = mf := by omega
      rw [this]
      calc pixels < chunk * mf := hstrict
        _ = mf * chunk := by ring
    exact Nat.div_eq_of_lt_le h1 h2
  have hmod : pixels % chunk = pixels - chunk * (mf - 1) := by
    have hmd := Nat.mod_add_div pixels chunk
    rw [hdiv] at hmd
    omega
  have hoffs : pixels / chunk * chunk = chunk * (mf - 1) := by
    rw [hdiv]; ring
  show (extractData lp (renderLoop f lp chunk pixels pixels s1 false chunk).1
      (renderLoop f lp chunk pixels pixels s1 false chunk).2
      (pixels % chunk) (pixels / chunk * chunk)).out t = some (f t)
  rw [extractData]
  simp only [hoffs, hmod]
  have hmin : min chunk (pixels - chunk * (mf - 1)) = pixels - chunk * (mf - 1) := by
    have : pixels - chunk * (mf - 1) = pixels % chunk := hmod.symm
    have hlt2 : pixels % chunk < chunk := Nat.mod_lt pixels (by omega)
    omega
  rw [hmin] at hbufF
  have hsplit : chunk * (mf - 1) * lp + (pixels - chunk * (mf - 1)) * lp = pixels * lp := by
    have h1 : chunk * (mf - 1) ≤ pixels := le_of_lt hmfprev
    calc chunk * (mf - 1) * lp + (pixels - chunk * (mf - 1)) * lp
        = (chunk * (mf - 1) + (pixels - chunk * (mf - 1))) * lp := by ring
      _ = pixels * lp := by rw [Nat.add_sub_cancel' h1]
  by_cases hwin : chunk * (mf - 1) * lp ≤ t ∧ t < chunk * (mf - 1) * lp + (pixels - chunk * (mf - 1)) * lp
  · rw [if_pos hwin]
    have hb := hbufF (t - chunk * (mf - 1) * lp) (by omega)
    rw [hb]
    congr 2
    omega
  · rw [if_neg hwin]
    exact houtF t (by omega)
